import Mathlib

/-!
Shallow embedding of the MET Museum Explorer client (src/app.py) and proofs
about its coordination logic: HTTP fetch error translation, response caching,
pagination arithmetic, page slicing, batch loading and detail display.

Conventions of the embedding:
  * Python ints are modelled as `Int`; Python `//` (floor division) is `Int.fdiv`.
  * A JSON field that may be missing is an `Option`; `none` means the key is
    absent, `some ""` means the key is present with an empty string.
  * Network effects are abstracted by a `FetchOutcome` value describing how the
    pair `requests.get` / `response.raise_for_status` / `response.json()` ended;
    the translation of the `try/except requests.exceptions.RequestException`
    block is a total function on that outcome type (the except clause catches
    timeouts, transport errors, the HTTPError raised by raise_for_status and
    the JSONDecodeError raised by response.json(), all subclasses of
    RequestException).
  * The `@st.cache_data(ttl=3600)` decorator is modelled by `cached_call`,
    which stores whatever value the wrapped function returns, a `none`
    failure value included, exactly as streamlit does.
-/

namespace MetApp

/-- How one HTTP interaction (GET, status check, JSON decode) ended. -/
inductive FetchOutcome (α : Type) where
  | success (body : α)
  | httpError (status : Nat) (msg : String)
  | timedOut
  | transportError (msg : String)
  | malformedJson
deriving DecidableEq

/-- The value passed as `timeout=10` to both `requests.get` calls, in seconds. -/
def request_timeout_seconds : Nat := 10

/-- Whether the outcome is a 2xx response with a well-formed JSON body. -/
def is_success {α : Type} : FetchOutcome α → Bool
  | .success _ => true
  | _ => false

/-- Text of the `requests.exceptions.RequestException` for a failed outcome. -/
def exception_text {α : Type} : FetchOutcome α → Option String
  | .success _ => none
  | .httpError status _ => some ("HTTP status " ++ toString status)
  | .timedOut => some "request timed out"
  | .transportError m => some m
  | .malformedJson => some "malformed JSON body"

/-- Body of the search endpoint response; either key may be absent. -/
structure SearchPayload where
  total : Option Int := none
  objectIDs : Option (List Int) := none
deriving DecidableEq

/-- The object-detail fields read by `display_artwork` (src/app.py:65-117).
`none` models an absent key, `some ""` a present-but-empty value. -/
structure ArtworkPayload where
  title : Option String := none
  artistDisplayName : Option String := none
  culture : Option String := none
  objectDate : Option String := none
  medium : Option String := none
  dimensions : Option String := none
  department : Option String := none
  classification : Option String := none
  creditLine : Option String := none
  primaryImage : Option String := none
  primaryImageSmall : Option String := none
  objectURL : Option String := none
deriving DecidableEq

/-- Result of `search_met` (src/app.py:38-51): the try block returns the parsed
JSON on success; the except clause reports the error and returns `None`. -/
def search_met (o : FetchOutcome SearchPayload) : Option SearchPayload :=
  match o with
  | .success body => some body
  | _ => none

/-- The `st.error` message issued by `search_met` on failure (src/app.py:50). -/
def search_error_message (o : FetchOutcome SearchPayload) : Option String :=
  (exception_text o).map (fun e => "Error searching: " ++ e)

/-- Result of `get_object_details` (src/app.py:54-63), same try/except shape. -/
def get_object_details (o : FetchOutcome ArtworkPayload) : Option ArtworkPayload :=
  match o with
  | .success body => some body
  | _ => none

/-- The `st.error` message issued by `get_object_details` on failure (src/app.py:62). -/
def details_error_message (o : FetchOutcome ArtworkPayload) : Option String :=
  (exception_text o).map (fun e => "Error fetching object details: " ++ e)

/-- A `st.cache_data` store: key to cached return value and expiry instant. -/
def Cache (κ α : Type) : Type := κ → Option (α × Int)

/-- Store a value under a key, leaving other keys untouched. -/
def cache_update {κ α : Type} [DecidableEq κ] (c : Cache κ α) (k : κ) (v : α × Int) :
    Cache κ α :=
  fun q => if q = k then some v else c q

/-- One call through `@st.cache_data(ttl=3600)` (src/app.py:37,53): if a live
entry exists for the key it is returned with no underlying call; otherwise the
wrapped function runs (its result is `fetched`) and its return value is stored
unconditionally, whether it is a payload or the `None` produced by the except
clause.  Returns the value handed to the caller, the new store, and the number
of underlying network calls performed (0 or 1). -/
def cached_call {κ α : Type} [DecidableEq κ] (now ttl : Int) (c : Cache κ α)
    (k : κ) (fetched : α) : α × Cache κ α × Nat :=
  match c k with
  | some (v, expiresAt) =>
      if now < expiresAt then (v, c, 0)
      else (fetched, cache_update c k (fetched, now + ttl), 1)
  | none => (fetched, cache_update c k (fetched, now + ttl), 1)

/-- The `ttl=3600` argument of both cache decorators, in seconds. -/
def cache_ttl_seconds : Int := 3600

/-- Number of pages, src/app.py:157:
`total_pages = (len(object_ids) - 1) // results_per_page + 1`;
Python `//` is floor division, hence `Int.fdiv`. -/
def total_pages (totalItems pageSize : Int) : Int :=
  (totalItems - 1).fdiv pageSize + 1

/-- The Previous button transition (src/app.py:162-164): decrement only when
the current page index is positive. -/
def prev_op (page : Int) : Int :=
  if 0 < page then page - 1 else page

/-- The Next button transition (src/app.py:169-171): increment only while the
current page index is below `total_pages - 1`. -/
def next_op (page totalPages : Int) : Int :=
  if page < totalPages - 1 then page + 1 else page

/-- Session page initialisation (src/app.py:154-155): the index is set to 0
only when no `page` key exists in the session state; an existing value is kept
as is, whatever query produced it. -/
def init_page (sessionPage : Option Int) : Int :=
  match sessionPage with
  | none => 0
  | some p => p

/-- The slice of the current page (src/app.py:174-176):
`start_idx = page * per_page`, `end_idx = min(start_idx + per_page, len(ids))`,
`ids[start_idx:end_idx]`. -/
def page_slice (objectIds : List Int) (page pageSize : Nat) : List Int :=
  let startIdx := page * pageSize
  let endIdx := min (startIdx + pageSize) objectIds.length
  (objectIds.drop startIdx).take (endIdx - startIdx)

/-- The per-page slices in page order, for pages `0 .. count - 1`. -/
def page_slices (objectIds : List Int) (pageSize count : Nat) : List (List Int) :=
  (List.range count).map (fun p => page_slice objectIds p pageSize)

/-- The per-page detail loop (src/app.py:178-183): one `get_object_details`
result per identifier of the slice, in slice order; a `none` for one
identifier leaves every other iteration untouched. -/
def load_page {α : Type} (fetch : Int → Option α) (ids : List Int) :
    List (Int × Option α) :=
  ids.map (fun i => (i, fetch i))

/-- How `main` presents a search response (src/app.py:143-188). -/
inductive SearchOutcome where
  | results (ids : List Int)
  | noResults
  | searchFailed
  | keyErrorCrash
deriving DecidableEq

/-- Python truthiness of the parsed response dict: an empty dict is falsy. -/
def payload_truthy (r : SearchPayload) : Bool :=
  r.total.isSome || r.objectIDs.isSome

/-- The branch taken by `main` on a search response (src/app.py:147,185,188):
`if search_results and search_results.get('total', 0) > 0` shows the results
read from `search_results['objectIDs']` (a missing key there raises KeyError),
`elif search_results and search_results.get('total', 0) == 0` shows the
no-results warning, and everything else shows the search-failure error. -/
def classify_search (res : Option SearchPayload) : SearchOutcome :=
  match res with
  | none => .searchFailed
  | some r =>
      if payload_truthy r then
        if 0 < r.total.getD 0 then
          match r.objectIDs with
          | some ids => .results ids
          | none => .keyErrorCrash
        else if r.total.getD 0 = 0 then .noResults
        else .searchFailed
      else .searchFailed

/-- Identifiers whose details the page loop will fetch under each outcome. -/
def ids_to_fetch : SearchOutcome → List Int
  | .results ids => ids
  | _ => []

/-- Python truthiness of an optional string field: present and non-empty. -/
def truthy : Option String → Bool
  | none => false
  | some s => s != ""

/-- What `display_artwork` renders for one artwork. -/
structure DisplayedArtwork where
  image : Option String
  title : String
  artist : Option String
  culture : Option String
  date : Option String
  medium : Option String
  dimensions : Option String
  department : Option String
  classification : Option String
  credit : Option String
  link : Option String
deriving DecidableEq

/-- `display_artwork` (src/app.py:65-117): the image is `primaryImage` when
truthy, else `primaryImageSmall` when truthy, else the no-image notice; the
title is `artwork.get('title', 'Untitled')`, which falls back to
`"Untitled"` only when the key is absent; every metadata line is shown only
when its field is truthy; the link is shown only when `objectURL` is truthy. -/
def display_artwork (a : ArtworkPayload) : DisplayedArtwork :=
  { image :=
      if truthy a.primaryImage then a.primaryImage
      else if truthy a.primaryImageSmall then a.primaryImageSmall
      else none
    title := a.title.getD "Untitled"
    artist := if truthy a.artistDisplayName then a.artistDisplayName else none
    culture := if truthy a.culture then a.culture else none
    date := if truthy a.objectDate then a.objectDate else none
    medium := if truthy a.medium then a.medium else none
    dimensions := if truthy a.dimensions then a.dimensions else none
    department := if truthy a.department then a.department else none
    classification := if truthy a.classification then a.classification else none
    credit := if truthy a.creditLine then a.creditLine else none
    link := if truthy a.objectURL then a.objectURL else none }

/-- An initially empty cache store over integer keys. -/
def c4_cache0 : Cache Nat (Option Nat) := fun _ => none

/-- First call: at time 0 the underlying fetch for key 7 fails (returns `none`). -/
def c4_first : Option Nat × Cache Nat (Option Nat) × Nat :=
  cached_call 0 3600 c4_cache0 7 none

/-- Second call: at time 10, same key 7; the network would now succeed with 42. -/
def c4_second : Option Nat × Cache Nat (Option Nat) × Nat :=
  cached_call 10 3600 c4_first.2.1 7 (some 42)

/-- Identifier list of a fresh three-item search result. -/
def stale_session_ids : List Int := [10, 20, 30]

/-- A detail fetcher where identifier 2 fails and every other identifier
succeeds with its own value. -/
def c7_fetch : Int → Option Int :=
  fun i => if i = 2 then none else some i

/-- A detail payload whose `title` key is present but empty. -/
def empty_title_payload : ArtworkPayload := { title := some "" }

/-- A detail payload carrying only `title` and `objectURL`. -/
def two_field_payload : ArtworkPayload :=
  { title := some "The Harvesters"
    objectURL := some "https://www.metmuseum.org/art/collection/search/435809" }

/-- C1: for every page state with `0 ≤ currentPageIndex < totalPages`, the
Previous transition at index 0 is a no-op, the Next transition at the last
page is a no-op, and both transitions keep the index inside
`[0, totalPages)`. -/
theorem nav_preserves_bounds (page totalPages : Int)
    (h0 : 0 ≤ page) (h1 : page < totalPages) :
    prev_op 0 = 0 ∧
    next_op (totalPages - 1) totalPages = totalPages - 1 ∧
    (0 ≤ prev_op page ∧ prev_op page < totalPages) ∧
    (0 ≤ next_op page totalPages ∧ next_op page totalPages < totalPages) := by
  refine ⟨by simp [prev_op], by simp [next_op], ?_, ?_⟩
  · unfold prev_op; split <;> omega
  · unfold next_op; split <;> omega

/-- Witness for C1 at `page = 1`, `totalPages = 3`. -/
theorem nav_preserves_bounds_witness :
    ((0 : Int) ≤ 1 ∧ (1 : Int) < 3) ∧
    (prev_op 0 = 0 ∧
      next_op (3 - 1) 3 = 3 - 1 ∧
      (0 ≤ prev_op 1 ∧ prev_op 1 < 3) ∧
      (0 ≤ next_op 1 3 ∧ next_op 1 3 < 3)) :=
  ⟨⟨by decide, by decide⟩, nav_preserves_bounds 1 3 (by decide) (by decide)⟩

/-- C2: for positive item count and page size, the page count computed on
src/app.py:157 equals the ceiling of `totalItems / pageSize`, and is at
least 1. -/
theorem total_pages_eq_ceil (n ps : Int) (hn : 0 < n) (hps : 0 < ps) :
    total_pages n ps = ⌈(n : ℚ) / (ps : ℚ)⌉ ∧ 1 ≤ total_pages n ps := by
  have hfd : (n - 1).fdiv ps = (n - 1) / ps := Int.fdiv_eq_ediv _ (le_of_lt hps)
  set q : Int := (n - 1) / ps with hqdef
  have hub : n - 1 < (q + 1) * ps := Int.lt_ediv_add_one_mul_self (n - 1) hps
  have hlb : q * ps ≤ n - 1 := Int.ediv_mul_le (n - 1) (ne_of_gt hps)
  have hq0 : 0 ≤ q := Int.ediv_nonneg (by omega) (le_of_lt hps)
  have hpsQ : (0 : ℚ) < (ps : ℚ) := by exact_mod_cast hps
  have hceil : ⌈(n : ℚ) / (ps : ℚ)⌉ = q + 1 := by
    rw [Int.ceil_eq_iff]
    constructor
    · have hlt : q * ps < n := by linarith
      have hltQ : (q : ℚ) * (ps : ℚ) < (n : ℚ) := by exact_mod_cast hlt
      have hq : (q : ℚ) < (n : ℚ) / (ps : ℚ) := (lt_div_iff₀ hpsQ).mpr hltQ
      push_cast
      linarith
    · have hle : n ≤ (q + 1) * ps := by
        have := Int.lt_iff_add_one_le.mp hub
        linarith
      have hleQ : (n : ℚ) ≤ ((q : ℚ) + 1) * (ps : ℚ) := by exact_mod_cast hle
      have hdiv : (n : ℚ) / (ps : ℚ) ≤ (q : ℚ) + 1 := (div_le_iff₀ hpsQ).mpr hleQ
      push_cast
      linarith
  constructor
  · unfold total_pages
    rw [hfd, hceil]
  · unfold total_pages
    rw [hfd]
    omega

/-- Witness for C2 at `totalItems = 45`, `pageSize = 20`. -/
theorem total_pages_eq_ceil_witness :
    ((0 : Int) < 45 ∧ (0 : Int) < 20) ∧
    (total_pages 45 20 = ⌈(45 : ℚ) / (20 : ℚ)⌉ ∧ 1 ≤ total_pages 45 20) :=
  ⟨⟨by decide, by decide⟩, total_pages_eq_ceil 45 20 (by decide) (by decide)⟩

/-- The clamped slice is the same list as a plain take-after-drop: clamping the
end index only ever removes elements that are past the end of the list. -/
theorem page_slice_eq_take_drop (ids : List Int) (p ps : Nat) :
    page_slice ids p ps = (ids.drop (p * ps)).take ps := by
  simp only [page_slice]
  rcases Nat.le_total (p * ps + ps) ids.length with h | h
  · rw [min_eq_left h]
    congr 1
    omega
  · rw [min_eq_right h]
    have hd : (ids.drop (p * ps)).length = ids.length - p * ps :=
      List.length_drop _ _
    rw [List.take_of_length_le (by rw [hd]),
      List.take_of_length_le (by rw [hd]; omega)]

/-- Concatenating the first `k` take-after-drop slices recovers any list of
length at most `k * ps`. -/
theorem flatten_take_drop_slices (ps : Nat) : ∀ (k : Nat) (l : List Int),
    l.length ≤ k * ps →
    ((List.range k).map (fun p => (l.drop (p * ps)).take ps)).flatten = l := by
  intro k
  induction k with
  | zero =>
      intro l h
      have hl : l = [] := List.length_eq_zero.mp (by omega)
      subst hl
      simp
  | succ n ih =>
      intro l h
      rw [List.range_succ_eq_map]
      simp only [List.map_cons, List.map_map, List.flatten_cons, Nat.zero_mul,
        List.drop_zero]
      have htail : (List.range n).map ((fun p => (l.drop (p * ps)).take ps) ∘ Nat.succ)
          = (List.range n).map (fun p => ((l.drop ps).drop (p * ps)).take ps) := by
        apply List.map_congr_left
        intro p _
        simp only [Function.comp]
        congr 1
        rw [List.drop_drop]
        congr 1
        simp only [Nat.succ_eq_add_one]
        ring
      rw [htail, ih (l.drop ps) ?hlen, List.take_append_drop]
      case hlen =>
        rw [List.length_drop]
        have hexp : (n + 1) * ps = n * ps + ps := by ring
        rw [hexp] at h
        set m := n * ps
        omega

/-- C3: for a non-empty identifier list and positive page size, the per-page
slices for pages `0 .. totalPages - 1` concatenate, in page order, to the
whole identifier list, and their lengths sum to its length. -/
theorem page_slices_partition (ids : List Int) (ps : Nat)
    (hne : ids ≠ []) (hps : 0 < ps) :
    (page_slices ids ps (total_pages ids.length ps).toNat).flatten = ids ∧
    ((page_slices ids ps (total_pages ids.length ps).toNat).map List.length).sum
      = ids.length := by
  have hlen : 0 < ids.length := List.length_pos.mpr hne
  have hbridge : (total_pages (ids.length : Int) (ps : Int)).toNat
      = (ids.length - 1) / ps + 1 := by
    have hb : total_pages (ids.length : Int) (ps : Int)
        = (((ids.length - 1) / ps + 1 : Nat) : Int) := by
      unfold total_pages
      rw [Int.fdiv_eq_ediv _ (by exact_mod_cast Nat.zero_le ps),
        show ((ids.length : Int) - 1) = ((ids.length - 1 : Nat) : Int) by omega,
        ← Int.ofNat_ediv]
      push_cast
      ring
    rw [hb, Int.toNat_natCast]
  have hcover : ids.length ≤ ((ids.length - 1) / ps + 1) * ps := by
    have hdm := Nat.div_add_mod (ids.length - 1) ps
    have hmod : (ids.length - 1) % ps < ps := Nat.mod_lt _ hps
    set q := (ids.length - 1) / ps
    set r := (ids.length - 1) % ps
    have hexp : (q + 1) * ps = ps * q + ps := by ring
    rw [hexp]
    set m := ps * q
    omega
  have hflat : (page_slices ids ps (total_pages ids.length ps).toNat).flatten = ids := by
    unfold page_slices
    rw [hbridge,
      show (fun p => page_slice ids p ps) = (fun p => (ids.drop (p * ps)).take ps)
        from funext (fun p => page_slice_eq_take_drop ids p ps)]
    exact flatten_take_drop_slices ps _ ids hcover
  refine ⟨hflat, ?_⟩
  rw [← List.length_flatten, hflat]

/-- Witness for C3 at `objectIds = [1, 2, 3, 4, 5]`, `pageSize = 2`. -/
theorem page_slices_partition_witness :
    (([1, 2, 3, 4, 5] : List Int) ≠ [] ∧ 0 < 2) ∧
    ((page_slices [1, 2, 3, 4, 5] 2
        (total_pages (List.length ([1, 2, 3, 4, 5] : List Int)) 2).toNat).flatten
        = [1, 2, 3, 4, 5] ∧
      ((page_slices [1, 2, 3, 4, 5] 2
        (total_pages (List.length ([1, 2, 3, 4, 5] : List Int)) 2).toNat).map
          List.length).sum = List.length ([1, 2, 3, 4, 5] : List Int)) :=
  ⟨⟨by decide, by decide⟩, page_slices_partition [1, 2, 3, 4, 5] 2 (by decide) (by decide)⟩

/-- C10: for every identifier list, page index and positive page size, the
clamped slice has length at most the page size, occurs contiguously inside the
identifier list, and is empty whenever the start index is at or past the end
of the list. -/
theorem page_slice_in_bounds (ids : List Int) (p ps : Nat) (hps : 0 < ps) :
    (page_slice ids p ps).length ≤ ps ∧
    (∃ pre post, ids = pre ++ page_slice ids p ps ++ post) ∧
    (ids.length ≤ p * ps → page_slice ids p ps = []) := by
  rw [page_slice_eq_take_drop]
  refine ⟨?_, ?_, ?_⟩
  · rw [List.length_take]
    exact min_le_left _ _
  · refine ⟨ids.take (p * ps), ids.drop (p * ps + ps), ?_⟩
    rw [← List.drop_drop, List.append_assoc, List.take_append_drop,
      List.take_append_drop]
  · intro h
    have hnil : ids.drop (p * ps) = [] := by
      rw [← List.length_eq_zero, List.length_drop]
      omega
    rw [hnil, List.take_nil]

/-- Witness for C10 at `ids = [1, 2, 3]`, `p = 2`, `ps = 2` (start past end). -/
theorem page_slice_in_bounds_witness :
    0 < 2 ∧
    ((page_slice [1, 2, 3] 2 2).length ≤ 2 ∧
      (∃ pre post, ([1, 2, 3] : List Int) = pre ++ page_slice [1, 2, 3] 2 2 ++ post) ∧
      (List.length ([1, 2, 3] : List Int) ≤ 2 * 2 → page_slice [1, 2, 3] 2 2 = [])) :=
  ⟨by decide, page_slice_in_bounds [1, 2, 3] 2 2 (by decide)⟩

/-- C4 counterexample: the first call for key 7 fails (the wrapped function
returns `none`), yet the second call for the same key within the TTL performs
zero underlying network calls and is served the cached failure — the decorator
memoizes the `None` returned by the except clause, so the claim that a call
after a failure retries the network is false here. -/
theorem cached_failure_served_from_cache :
    c4_first.2.2 = 1 ∧ c4_second.2.2 = 0 ∧ c4_second.1 = none ∧
    ¬(c4_second.2.2 = 1) := by decide

/-- C4 amended: every result, success or failure alike, is memoized.  Starting
from a key not in the store, two calls with the same key whose second call
falls within the TTL of the first perform exactly one underlying network call
between them, and the second call is handed the stored first result whatever
it was. -/
theorem cached_call_memoizes_all {κ α : Type} [DecidableEq κ] (c : Cache κ α)
    (k : κ) (t1 t2 ttl : Int) (f1 f2 : α)
    (hmiss : c k = none) (hwithin : t2 < t1 + ttl) :
    (cached_call t1 ttl c k f1).2.2 = 1 ∧
    (cached_call t2 ttl (cached_call t1 ttl c k f1).2.1 k f2).2.2 = 0 ∧
    (cached_call t2 ttl (cached_call t1 ttl c k f1).2.1 k f2).1 = f1 ∧
    (cached_call t1 ttl c k f1).2.2
      + (cached_call t2 ttl (cached_call t1 ttl c k f1).2.1 k f2).2.2 = 1 := by
  simp [cached_call, hmiss, cache_update, hwithin]

/-- Witness for the amended C4 at the concrete failure-then-success run. -/
theorem cached_call_memoizes_all_witness :
    (c4_cache0 7 = none ∧ (10 : Int) < 0 + 3600) ∧
    ((cached_call 0 3600 c4_cache0 7 (none : Option Nat)).2.2 = 1 ∧
      (cached_call 10 3600 (cached_call 0 3600 c4_cache0 7 (none : Option Nat)).2.1 7
        (some 42)).2.2 = 0 ∧
      (cached_call 10 3600 (cached_call 0 3600 c4_cache0 7 (none : Option Nat)).2.1 7
        (some 42)).1 = none ∧
      (cached_call 0 3600 c4_cache0 7 (none : Option Nat)).2.2
        + (cached_call 10 3600 (cached_call 0 3600 c4_cache0 7 (none : Option Nat)).2.1 7
          (some 42)).2.2 = 1) :=
  ⟨⟨rfl, by decide⟩,
    cached_call_memoizes_all c4_cache0 7 0 10 3600 none (some 42) rfl (by decide)⟩

/-- C5: the fetch layer is total over every outcome of the HTTP interaction —
it yields a payload exactly on a 2xx response with well-formed JSON, yields
`none` together with a human-readable error message on every transport
failure, timeout, non-2xx status or malformed JSON body, and the timeout
passed to both `requests.get` calls is 10 seconds, that is 10,000 ms. -/
theorem http_fetch_never_throws (o : FetchOutcome SearchPayload)
    (o' : FetchOutcome ArtworkPayload) :
    ((search_met o).isSome = is_success o) ∧
    ((search_error_message o).isSome = !is_success o) ∧
    ((get_object_details o').isSome = is_success o') ∧
    ((details_error_message o').isSome = !is_success o') ∧
    request_timeout_seconds * 1000 = 10000 := by
  cases o <;> cases o' <;>
    simp [search_met, get_object_details, search_error_message,
      details_error_message, exception_text, is_success, request_timeout_seconds]

/-- C6, at the failing input: a session whose page index is 3, left over from
an earlier query, receives a fresh three-item search result at page size 20.
The initialisation keeps the stale index 3 instead of resetting it to 0 (only
a session with no page key at all gets 0), even though the recomputed page
count is 1, so the displayed slice is empty and the shown page number exceeds
the page count. -/
theorem init_page_keeps_stale_index :
    init_page (some 3) = 3 ∧ init_page (some 3) ≠ 0 ∧ init_page none = 0 ∧
    total_pages ((stale_session_ids.length : Nat) : Int) 20 = 1 ∧
    page_slice stale_session_ids 3 20 = [] := by decide

/-- C7: the per-page loop yields exactly one entry per input identifier, the
entries keep the input order, each entry's result is the fetch result of its
own identifier alone, and on `[1, 2, 3]` with identifier 2 failing the output
is `[1 → success, 2 → failure, 3 → success]`. -/
theorem load_page_one_entry_per_id {α : Type} (fetch : Int → Option α)
    (ids : List Int) :
    ((load_page fetch ids).map Prod.fst = ids) ∧
    ((load_page fetch ids).length = ids.length) ∧
    ((load_page fetch ids).Forall (fun e => e.2 = fetch e.1)) ∧
    (load_page c7_fetch [1, 2, 3] = [(1, some 1), (2, none), (3, some 3)]) := by
  refine ⟨?_, ?_, ?_, by decide⟩
  · simp [load_page, List.map_map, Function.comp_def]
  · simp [load_page]
  · induction ids with
    | nil => simp [load_page]
    | cons x xs ih =>
        simp only [load_page, List.map_cons, List.forall_cons] at ih ⊢
        exact ⟨trivial, ih⟩

/-- A truthiness-guarded field renders as absent exactly when the source field
is absent or empty. -/
theorem truthy_keep_eq_none (o : Option String) :
    (if truthy o then o else none) = none ↔ (o = none ∨ o = some "") := by
  cases o with
  | none => simp [truthy]
  | some s => by_cases h : s = "" <;> simp [truthy, h]

/-- The image pick renders as absent exactly when both image fields are absent
or empty. -/
theorem image_pick_eq_none (o1 o2 : Option String) :
    (if truthy o1 then o1 else if truthy o2 then o2 else none) = none ↔
      ((o1 = none ∨ o1 = some "") ∧ (o2 = none ∨ o2 = some "")) := by
  cases o1 with
  | none =>
      cases o2 with
      | none => simp [truthy]
      | some s2 => by_cases h2 : s2 = "" <;> simp [truthy, h2]
  | some s1 =>
      cases o2 with
      | none => by_cases h1 : s1 = "" <;> simp [truthy, h1]
      | some s2 =>
          by_cases h1 : s1 = "" <;> by_cases h2 : s2 = "" <;>
            simp [truthy, h1, h2]

/-- The `dict.get` fallback produces the default exactly when the key is
absent or already carries the default string. -/
theorem getD_untitled (o : Option String) :
    (Option.getD o "Untitled" = "Untitled") ↔ (o = none ∨ o = some "Untitled") := by
  cases o <;> simp

/-- C8 counterexample: a payload whose `title` key is present but empty is
displayed with the empty title, not with the `"Untitled"` placeholder — the
`dict.get` default fires only when the key is absent, so the claim that an
empty title is defaulted for display is false here. -/
theorem empty_title_not_defaulted :
    (display_artwork empty_title_payload).title = "" ∧
    ¬((display_artwork empty_title_payload).title = "Untitled") := by decide

/-- C8 amended: every non-title field of the projection renders as absent
exactly when the remote field is absent or empty, never as a placeholder;
`title` is defaulted to `"Untitled"` only when the key is absent (a
present-but-empty title renders as the empty string); and the payload
carrying only `title` and `objectURL` displays exactly those two fields. -/
theorem display_artwork_optional_projection (a : ArtworkPayload) :
    ((display_artwork a).artist = none ↔
      (a.artistDisplayName = none ∨ a.artistDisplayName = some "")) ∧
    ((display_artwork a).culture = none ↔
      (a.culture = none ∨ a.culture = some "")) ∧
    ((display_artwork a).date = none ↔
      (a.objectDate = none ∨ a.objectDate = some "")) ∧
    ((display_artwork a).medium = none ↔
      (a.medium = none ∨ a.medium = some "")) ∧
    ((display_artwork a).dimensions = none ↔
      (a.dimensions = none ∨ a.dimensions = some "")) ∧
    ((display_artwork a).department = none ↔
      (a.department = none ∨ a.department = some "")) ∧
    ((display_artwork a).classification = none ↔
      (a.classification = none ∨ a.classification = some "")) ∧
    ((display_artwork a).credit = none ↔
      (a.creditLine = none ∨ a.creditLine = some "")) ∧
    ((display_artwork a).link = none ↔
      (a.objectURL = none ∨ a.objectURL = some "")) ∧
    ((display_artwork a).image = none ↔
      ((a.primaryImage = none ∨ a.primaryImage = some "") ∧
        (a.primaryImageSmall = none ∨ a.primaryImageSmall = some ""))) ∧
    ((display_artwork a).title = "Untitled" ↔
      (a.title = none ∨ a.title = some "Untitled")) ∧
    ((display_artwork empty_title_payload).title = "") ∧
    (display_artwork two_field_payload =
      { image := none, title := "The Harvesters", artist := none, culture := none,
        date := none, medium := none, dimensions := none, department := none,
        classification := none, credit := none,
        link := some "https://www.metmuseum.org/art/collection/search/435809" }) :=
  ⟨truthy_keep_eq_none _, truthy_keep_eq_none _, truthy_keep_eq_none _,
    truthy_keep_eq_none _, truthy_keep_eq_none _, truthy_keep_eq_none _,
    truthy_keep_eq_none _, truthy_keep_eq_none _, truthy_keep_eq_none _,
    image_pick_eq_none _ _, getD_untitled _, by decide, by decide⟩

/-- C9: every response whose `total` field is present and 0 is presented as
the no-results case — not as the search-failure case, which is a distinct
outcome — and no identifier is handed to the page loop, whether or not the
`objectIDs` key is present. -/
theorem zero_total_is_no_results (r : SearchPayload) (h : r.total = some 0) :
    classify_search (some r) = SearchOutcome.noResults ∧
    SearchOutcome.noResults ≠ SearchOutcome.searchFailed ∧
    ids_to_fetch (classify_search (some r)) = [] := by
  have htr : payload_truthy r = true := by simp [payload_truthy, h]
  have hc : classify_search (some r) = SearchOutcome.noResults := by
    simp [classify_search, htr, h]
  refine ⟨hc, by decide, ?_⟩
  rw [hc]
  rfl

/-- Witness for C9 at the payload whose only key is `total = 0` (no
`objectIDs` key at all). -/
theorem zero_total_is_no_results_witness :
    (({ total := some 0 } : SearchPayload).total = some 0) ∧
    (classify_search (some ({ total := some 0 } : SearchPayload))
        = SearchOutcome.noResults ∧
      SearchOutcome.noResults ≠ SearchOutcome.searchFailed ∧
      ids_to_fetch (classify_search (some ({ total := some 0 } : SearchPayload)))
        = []) :=
  ⟨rfl, zero_total_is_no_results _ rfl⟩

end MetApp
